import Mathlib

set_option linter.unnecessarySeqFocus false

/-!
Shallow embedding of the license-server (src/index.js, with the variant
src/unnamed/part_000) : a MongoDB-backed Express service managing license
records.  The record store is modelled as a `List License`; `findOne`
returns the first record with a given key, and a mongoose `save` on a
fetched document is modelled by `saveReplace`, which overwrites the stored
record with the same `licenseKey`.  Each HTTP handler becomes a pure
function from its request fields and the store to the JSON response
(status, success, message) paired with the updated store.  Dates are
modelled as `Option Nat` (mongoose `Date`, default `null`); JavaScript
falsiness of a request string field (`undefined`, `null`, `""`) is
modelled by `falsyStr` on `Option String`.
-/

/-- A license record, following the mongoose schema of `src/index.js`
(licenseKey, type, email, valid, deviceId, lastUsed).  The schema of
`src/unnamed/part_000` is the same minus the optional `type` field; its
handlers simply never read `type`. -/
structure License where
  licenseKey : String
  type : Option String
  email : String
  valid : Bool
  deviceId : List String
  lastUsed : Option Nat
deriving DecidableEq

/-- A JSON response: HTTP status code, `success` flag, `message`. -/
structure Resp where
  status : Nat
  success : Bool
  message : String
deriving DecidableEq

/-- JavaScript falsiness of an optional string request field:
`undefined`/absent or the empty string. -/
def falsyStr : Option String → Bool
  | none => true
  | some s => s = ""

/-- `req.query.type || "sender"` from the `/validate` handler of
`src/index.js`: the effective required type defaults to `"sender"` when
the query parameter is absent or empty. -/
def effType (q : Option String) : String :=
  match q with
  | none => "sender"
  | some s => if s = "" then "sender" else s

/-- `License.findOne({ licenseKey })`: first record with the given key. -/
def findOne (k : String) : List License → Option License
  | [] => none
  | r :: rs => if r.licenseKey = k then some r else findOne k rs

/-- A mongoose `save` on a fetched document: overwrite the stored record
carrying the same `licenseKey`. -/
def saveReplace (r : License) : List License → List License
  | [] => []
  | s :: rest => if s.licenseKey = r.licenseKey then r :: rest else s :: saveReplace r rest

/-- `License.findOneAndDelete({ licenseKey })`: remove the first record
with the given key. -/
def removeFirst (k : String) : List License → List License
  | [] => []
  | r :: rs => if r.licenseKey = k then rs else r :: removeFirst k rs

/-- `POST /validate` of `src/index.js`.  `now` is the current time for
`new Date()`; `qtype` the `type` query parameter; `licenseKey`, `deviceId`
the request body fields. -/
def validate (now : Nat) (qtype licenseKey deviceId : Option String)
    (store : List License) : Resp × List License :=
  if falsyStr licenseKey || falsyStr deviceId then
    (⟨400, false, "Missing fields"⟩, store)
  else
    let ty := effType qtype
    let k := licenseKey.getD ""
    let d := deviceId.getD ""
    match findOne k store with
    | none => (⟨403, false, "Invalid license"⟩, store)
    | some license =>
      if license.valid = false then
        (⟨403, false, "Invalid license"⟩, store)
      else if license.type ≠ some ty then
        (⟨403, false, "License type mismatch"⟩, store)
      else
        let alreadyUsed := d ∈ license.deviceId
        if ¬alreadyUsed ∧ license.deviceId.length ≥ 1 then
          (⟨403, false, "License revoked: used on multiple devices."⟩,
            saveReplace { license with valid := false } store)
        else
          let devs := if d ∈ license.deviceId then license.deviceId else license.deviceId ++ [d]
          (⟨200, true, "License validated successfully"⟩,
            saveReplace { license with deviceId := devs, lastUsed := some now } store)

/-- `POST /validate` of `src/unnamed/part_000`: identical to the
`src/index.js` handler except that it performs no license-type check. -/
def altValidate (now : Nat) (licenseKey deviceId : Option String)
    (store : List License) : Resp × List License :=
  if falsyStr licenseKey || falsyStr deviceId then
    (⟨400, false, "Missing fields"⟩, store)
  else
    let k := licenseKey.getD ""
    let d := deviceId.getD ""
    match findOne k store with
    | none => (⟨403, false, "Invalid license"⟩, store)
    | some license =>
      if license.valid = false then
        (⟨403, false, "Invalid license"⟩, store)
      else
        let alreadyUsed := d ∈ license.deviceId
        if ¬alreadyUsed ∧ license.deviceId.length ≥ 1 then
          (⟨403, false, "License revoked: used on multiple devices."⟩,
            saveReplace { license with valid := false } store)
        else
          let devs := if d ∈ license.deviceId then license.deviceId else license.deviceId ++ [d]
          (⟨200, true, "License validated successfully"⟩,
            saveReplace { license with deviceId := devs, lastUsed := some now } store)

/-- `POST /generate` of `src/index.js`: issue a new license.  A new
record gets the schema defaults `valid = true`, `deviceId = []`,
`lastUsed = null`. -/
def generate (email licenseKey ty : Option String)
    (store : List License) : Resp × List License :=
  if falsyStr email || falsyStr licenseKey then
    (⟨400, false, "Missing fields"⟩, store)
  else
    let k := licenseKey.getD ""
    match findOne k store with
    | some _ => (⟨409, false, "License already exists"⟩, store)
    | none =>
      (⟨200, true, "License created"⟩,
        store ++ [⟨k, ty, email.getD "", true, [], none⟩])

/-- `POST /licenses/revoke` of `src/index.js`. -/
def revoke (licenseKey : Option String) (store : List License) : Resp × List License :=
  if falsyStr licenseKey then
    (⟨400, false, "Missing license key"⟩, store)
  else
    match findOne (licenseKey.getD "") store with
    | none => (⟨404, false, "License not found"⟩, store)
    | some license =>
      if license.valid = false then
        (⟨400, false, "License is already revoked"⟩, store)
      else
        (⟨200, true, "License revoked successfully"⟩,
          saveReplace { license with valid := false } store)

/-- `POST /licenses/reactivate` of `src/index.js`: set `valid = true`,
optionally clearing the bound devices when `resetDevices` is truthy. -/
def reactivate (licenseKey : Option String) (resetDevices : Bool)
    (store : List License) : Resp × List License :=
  if falsyStr licenseKey then
    (⟨400, false, "Missing licenseKey"⟩, store)
  else
    match findOne (licenseKey.getD "") store with
    | none => (⟨404, false, "License not found"⟩, store)
    | some license =>
      (⟨200, true, "License reactivated successfully"⟩,
        saveReplace
          { license with valid := true
                         deviceId := if resetDevices then [] else license.deviceId } store)

/-- `POST /licenses/delete` of `src/index.js`. -/
def deleteLicense (licenseKey : Option String) (store : List License) : Resp × List License :=
  if falsyStr licenseKey then
    (⟨400, false, "Missing license key"⟩, store)
  else
    match findOne (licenseKey.getD "") store with
    | none => (⟨404, false, "License not found"⟩, store)
    | some _ =>
      (⟨200, true, "License deleted successfully"⟩, removeFirst (licenseKey.getD "") store)

/-- `GET /licenses/summary` (identical in both source files):
`countDocuments()`, `countDocuments({valid:true})`,
`countDocuments({valid:false})`, read-only. -/
def summary (store : List License) : (Nat × Nat × Nat) × List License :=
  ((store.length,
    store.countP (fun r => r.valid),
    store.countP (fun r => !r.valid)), store)

/-- The MongoDB sort key order for `.sort({ lastUsed: -1 })` in descending
direction: a record comes no later than another when its `lastUsed` is at
least the other's, `null` (unset) ranking below every date. -/
def lastUsedGe : Option Nat → Option Nat → Bool
  | _, none => true
  | none, some _ => false
  | some a, some b => b ≤ a

/-- Record ordering used by both list endpoints: descending `lastUsed`,
unset timestamps last. -/
def lastUsedDesc (r s : License) : Prop := lastUsedGe r.lastUsed s.lastUsed = true

instance : DecidableRel lastUsedDesc := fun r s => by
  unfold lastUsedDesc; infer_instance

instance : IsTotal License lastUsedDesc where
  total r s := by
    unfold lastUsedDesc lastUsedGe
    cases r.lastUsed with
    | none => cases s.lastUsed <;> simp
    | some a =>
      cases s.lastUsed with
      | none => simp
      | some b => simp [Nat.le_total b a]

instance : IsTrans License lastUsedDesc where
  trans r s t := by
    unfold lastUsedDesc lastUsedGe
    rcases r.lastUsed with _ | a <;> rcases s.lastUsed with _ | b <;>
      rcases t.lastUsed with _ | c <;> simp <;> omega

/-- `GET /licenses/:type` of `src/index.js`:
`License.find({ type }).sort({ lastUsed: -1 })`, modelled as filtering and
then producing a list sorted by descending `lastUsed`. -/
def listByType (ty : String) (store : List License) : List License :=
  List.insertionSort lastUsedDesc (store.filter (fun r => r.type = some ty))

/-- `GET /licenses` of `src/unnamed/part_000`:
`License.find().sort({ lastUsed: -1 })`. -/
def listAll (store : List License) : List License :=
  List.insertionSort lastUsedDesc store

/-- One request intent against the store, for sequential-composition
claims. -/
inductive Op where
  | opGenerate (email licenseKey ty : Option String)
  | opValidate (now : Nat) (qtype licenseKey deviceId : Option String)
  | opRevoke (licenseKey : Option String)
  | opReactivate (licenseKey : Option String) (reset : Bool)
  | opDelete (licenseKey : Option String)
  | opSummary
  | opList (ty : String)
deriving DecidableEq

/-- The store after handling one request. -/
def applyOp (s : List License) : Op → List License
  | .opGenerate e k ty => (generate e k ty s).2
  | .opValidate now q k d => (validate now q k d s).2
  | .opRevoke k => (revoke k s).2
  | .opReactivate k b => (reactivate k b s).2
  | .opDelete k => (deleteLicense k s).2
  | .opSummary => (summary s).2
  | .opList _ => s

/-- The store after a sequence of requests, applied left to right. -/
def applyOps (s : List License) : List Op → List License
  | [] => s
  | op :: ops => applyOps (applyOp s op) ops

/-! ### Store lemmas -/

theorem findOne_key {k : String} {r : License} :
    ∀ {s : List License}, findOne k s = some r → r.licenseKey = k
  | [], h => by simp [findOne] at h
  | x :: rest, h => by
    by_cases hx : x.licenseKey = k
    · simp [findOne, hx] at h; simpa [← h]
    · simp [findOne, hx] at h; exact findOne_key h

theorem findOne_mem {k : String} {r : License} :
    ∀ {s : List License}, findOne k s = some r → r ∈ s
  | [], h => by simp [findOne] at h
  | x :: rest, h => by
    by_cases hx : x.licenseKey = k
    · simp [findOne, hx] at h; simp [h]
    · simp [findOne, hx] at h
      exact List.mem_cons_of_mem x (findOne_mem h)

theorem findOne_saveReplace {k : String} {p r : License} (hp : p.licenseKey = k) :
    ∀ {s : List License}, findOne k s = some r →
      findOne k (saveReplace p s) = some p
  | [], h => by simp [findOne] at h
  | x :: rest, h => by
    by_cases hx : x.licenseKey = k
    · simp [saveReplace, hx, hp, findOne]
    · have hx' : ¬x.licenseKey = p.licenseKey := by rw [hp]; exact hx
      simp [findOne, hx] at h
      simp [saveReplace, hx', findOne, hx]
      exact findOne_saveReplace hp h

theorem mem_saveReplace {x p : License} :
    ∀ {s : List License}, x ∈ saveReplace p s → x = p ∨ x ∈ s
  | [], h => by simp [saveReplace] at h
  | y :: rest, h => by
    by_cases hy : y.licenseKey = p.licenseKey
    · simp [saveReplace, hy] at h
      rcases h with h | h
      · exact Or.inl h
      · exact Or.inr (List.mem_cons_of_mem y h)
    · simp [saveReplace, hy] at h
      rcases h with h | h
      · exact Or.inr (by simp [h])
      · rcases mem_saveReplace h with h' | h'
        · exact Or.inl h'
        · exact Or.inr (List.mem_cons_of_mem y h')

theorem mem_removeFirst {x : License} {k : String} :
    ∀ {s : List License}, x ∈ removeFirst k s → x ∈ s
  | [], h => by simp [removeFirst] at h
  | y :: rest, h => by
    by_cases hy : y.licenseKey = k
    · simp [removeFirst, hy] at h
      exact List.mem_cons_of_mem y h
    · simp [removeFirst, hy] at h
      rcases h with h | h
      · simp [h]
      · exact List.mem_cons_of_mem y (mem_removeFirst h)

/-! ### Claim theorems -/

/-- C10: for every store of records (each record's `valid` field being a
boolean by construction of `License`), the counts returned by the
`GET /licenses/summary` handler satisfy
`totalLicenses = activeLicenses + revokedLicenses`, and the handler
returns the store unchanged. -/
theorem summary_counts_consistent (s : List License) :
    (summary s).1.1 = (summary s).1.2.1 + (summary s).1.2.2 ∧ (summary s).2 = s := by
  refine ⟨?_, rfl⟩
  simp only [summary]
  have h := List.length_eq_countP_add_countP (fun r => r.valid) s
  simpa using h

/-- C9: both list endpoints return exactly the selected records — all of
them for `GET /licenses` of the variant file, those whose `type` equals
the path parameter for `GET /licenses/:type` — as a permutation of the
(filtered) store, sorted by `lastUsed` descending (unset timestamps rank
below every set one). -/
theorem list_sorted_desc (ty : String) (s : List License) :
    List.Perm (listByType ty s) (s.filter (fun r => r.type = some ty)) ∧
    List.Sorted lastUsedDesc (listByType ty s) ∧
    List.Perm (listAll s) s ∧
    List.Sorted lastUsedDesc (listAll s) :=
  ⟨List.perm_insertionSort lastUsedDesc _,
   List.sorted_insertionSort lastUsedDesc _,
   List.perm_insertionSort lastUsedDesc _,
   List.sorted_insertionSort lastUsedDesc _⟩

/-- C1: a valid license already bound to a different device is revoked by
the triggering `POST /validate` call (in `src/index.js`, provided the call
reaches the device check, i.e. its effective required type matches the
record; the `src/unnamed/part_000` handler has no type check and revokes
unconditionally): the response is the 403 "revoked" failure, the record is
persisted with `valid = false`, and every subsequent validation on that
key — from any device, including the originally bound one — fails. -/
theorem validate_second_device_revokes
    (now : Nat) (qty : Option String) (k d : String) (s : List License) (r : License)
    (hk : k ≠ "") (hd : d ≠ "")
    (hfind : findOne k s = some r) (hvalid : r.valid = true)
    (hne : r.deviceId ≠ []) (hnotin : d ∉ r.deviceId)
    (hty : r.type = some (effType qty)) :
    (validate now qty (some k) (some d) s).1
        = ⟨403, false, "License revoked: used on multiple devices."⟩ ∧
    (validate now qty (some k) (some d) s).2 = saveReplace { r with valid := false } s ∧
    findOne k (validate now qty (some k) (some d) s).2 = some { r with valid := false } ∧
    (∀ (now' : Nat) (qty' d' : Option String),
      (validate now' qty' (some k) d' (validate now qty (some k) (some d) s).2).1.success
        = false) ∧
    (altValidate now (some k) (some d) s).1
        = ⟨403, false, "License revoked: used on multiple devices."⟩ ∧
    (altValidate now (some k) (some d) s).2 = saveReplace { r with valid := false } s ∧
    (∀ (now' : Nat) (d' : Option String),
      (altValidate now' (some k) d' (altValidate now (some k) (some d) s).2).1.success
        = false) := by
  have hlen : r.deviceId.length ≥ 1 := by
    cases hdev : r.deviceId with
    | nil => exact absurd hdev hne
    | cons a l => simp
  have hmain : validate now qty (some k) (some d) s
      = (⟨403, false, "License revoked: used on multiple devices."⟩,
         saveReplace { r with valid := false } s) := by
    simp [validate, falsyStr, hk, hd, hfind, hvalid, hty, hnotin, hlen]
  have haltmain : altValidate now (some k) (some d) s
      = (⟨403, false, "License revoked: used on multiple devices."⟩,
         saveReplace { r with valid := false } s) := by
    simp [altValidate, falsyStr, hk, hd, hfind, hvalid, hnotin, hlen]
  have hkey0 : r.licenseKey = k := findOne_key hfind
  have hkey : ({ r with valid := false } : License).licenseKey = k := hkey0
  have hfind' : findOne k (saveReplace { r with valid := false } s)
      = some { r with valid := false } := findOne_saveReplace hkey hfind
  refine ⟨by rw [hmain], by rw [hmain], by rw [hmain]; exact hfind', ?_,
          by rw [haltmain], by rw [haltmain], ?_⟩
  · intro now' qty' d'
    rw [hmain]
    simp [validate, falsyStr, hk, hfind']
    split <;> rfl
  · intro now' d'
    rw [haltmain]
    simp [altValidate, falsyStr, hk, hfind']
    split <;> rfl

theorem validate_second_device_revokes_witness :
    (validate 5 none (some "K") (some "dev2")
        [⟨"K", some "sender", "a@x.com", true, ["dev1"], none⟩]).1
      = ⟨403, false, "License revoked: used on multiple devices."⟩ ∧
    (validate 6 none (some "K") (some "dev1")
        (validate 5 none (some "K") (some "dev2")
          [⟨"K", some "sender", "a@x.com", true, ["dev1"], none⟩]).2).1.success = false := by
  have h := validate_second_device_revokes 5 none "K" "dev2"
    [⟨"K", some "sender", "a@x.com", true, ["dev1"], none⟩]
    ⟨"K", some "sender", "a@x.com", true, ["dev1"], none⟩
    (by decide) (by decide) rfl rfl (by decide) (by decide) rfl
  exact ⟨h.1, h.2.2.2.1 6 none (some "dev1")⟩

/-- C2: a `POST /validate` call whose `licenseKey` has no record, or whose
record already has `valid = false`, fails (the `success` flag is `false`,
with "Invalid license" semantics) and leaves the store completely
unchanged — no record is created, mutated, or deleted, and in particular
a revoked record is never set back to valid.  This holds for the handlers
of both source files. -/
theorem validate_unknown_or_revoked_pure
    (now : Nat) (qty kOpt dOpt : Option String) (s : List License)
    (h : findOne (kOpt.getD "") s = none ∨
         ∃ r, findOne (kOpt.getD "") s = some r ∧ r.valid = false) :
    (validate now qty kOpt dOpt s).1.success = false ∧
    (validate now qty kOpt dOpt s).2 = s ∧
    (altValidate now kOpt dOpt s).1.success = false ∧
    (altValidate now kOpt dOpt s).2 = s := by
  by_cases hmiss : (falsyStr kOpt || falsyStr dOpt) = true
  · simp [validate, altValidate, hmiss]
  · rw [Bool.not_eq_true] at hmiss
    rcases h with hnone | ⟨r, hfind, hval⟩
    · simp [validate, altValidate, hmiss, hnone]
    · simp [validate, altValidate, hmiss, hfind, hval]

theorem validate_unknown_or_revoked_pure_witness :
    (findOne "K" ([] : List License) = none ∨
      ∃ r, findOne "K" ([] : List License) = some r ∧ r.valid = false) ∧
    (validate 0 none (some "K") (some "d") []).1.success = false ∧
    (validate 0 none (some "K") (some "d") []).2 = [] := by
  have hpre : findOne "K" ([] : List License) = none ∨
      ∃ r, findOne "K" ([] : List License) = some r ∧ r.valid = false := Or.inl rfl
  have h := validate_unknown_or_revoked_pure 0 none (some "K") (some "d") [] hpre
  exact ⟨hpre, h.1, h.2.1⟩

/-! ### Device-count invariant -/

/-- Every record in the store has at most one bound device.  This is the
inductive strengthening of the spec invariant (it also constrains revoked
records, which no operation ever extends). -/
def smallDevices (s : List License) : Prop := ∀ r ∈ s, r.deviceId.length ≤ 1

theorem smallDevices_saveReplace {p : License} {s : List License}
    (h : smallDevices s) (hp : p.deviceId.length ≤ 1) :
    smallDevices (saveReplace p s) := by
  intro x hx
  rcases mem_saveReplace hx with rfl | hx'
  · exact hp
  · exact h x hx'

theorem smallDevices_validate (now : Nat) (qty kOpt dOpt : Option String)
    {s : List License} (h : smallDevices s) :
    smallDevices (validate now qty kOpt dOpt s).2 := by
  unfold validate
  by_cases hmiss : (falsyStr kOpt || falsyStr dOpt) = true
  · simpa [hmiss] using h
  · rw [Bool.not_eq_true] at hmiss
    cases hfind : findOne (kOpt.getD "") s with
    | none => simpa [hmiss, hfind] using h
    | some license =>
      have hmem := h license (findOne_mem hfind)
      by_cases hval : license.valid = false
      · simpa [hmiss, hfind, hval] using h
      · by_cases hty : license.type ≠ some (effType qty)
        · simpa [hmiss, hfind, hval, hty] using h
        · have hty' : license.type = some (effType qty) := not_ne_iff.mp hty
          by_cases hrev : ¬(dOpt.getD "") ∈ license.deviceId ∧ license.deviceId.length ≥ 1
          · have hgoal : smallDevices (saveReplace { license with valid := false } s) :=
              smallDevices_saveReplace h hmem
            simpa [hmiss, hfind, hval, hty', hrev.1, hrev.2] using hgoal
          · by_cases hd : (dOpt.getD "") ∈ license.deviceId
            · have hgoal : smallDevices
                  (saveReplace { license with deviceId := license.deviceId,
                                              lastUsed := some now } s) :=
                smallDevices_saveReplace h (by simpa using hmem)
              simpa [hmiss, hfind, hval, hty', hd] using hgoal
            · have hlen : license.deviceId.length = 0 := by
                rcases Decidable.not_and_iff_or_not.mp hrev with h1 | h1
                · exact absurd hd (by simpa using h1)
                · omega
              have hnil : license.deviceId = [] := List.length_eq_zero.mp hlen
              have hgoal : smallDevices
                  (saveReplace { license with deviceId := [dOpt.getD ""],
                                              lastUsed := some now } s) :=
                smallDevices_saveReplace h (by simp)
              simpa [hmiss, hfind, hval, hty', hd, hnil] using hgoal

theorem smallDevices_generate (e kOpt ty : Option String)
    {s : List License} (h : smallDevices s) :
    smallDevices (generate e kOpt ty s).2 := by
  unfold generate
  by_cases hmiss : (falsyStr e || falsyStr kOpt) = true
  · simpa [hmiss] using h
  · rw [Bool.not_eq_true] at hmiss
    cases hfind : findOne (kOpt.getD "") s with
    | none =>
      simp only [hmiss, hfind, Bool.false_eq_true, if_false]
      intro x hx
      rcases List.mem_append.mp hx with hx' | hx'
      · exact h x hx'
      · simp at hx'
        simp [hx']
    | some p => simpa [hmiss, hfind] using h

theorem smallDevices_revoke (kOpt : Option String)
    {s : List License} (h : smallDevices s) :
    smallDevices (revoke kOpt s).2 := by
  unfold revoke
  by_cases hmiss : falsyStr kOpt = true
  · simpa [hmiss] using h
  · rw [Bool.not_eq_true] at hmiss
    cases hfind : findOne (kOpt.getD "") s with
    | none => simpa [hmiss, hfind] using h
    | some license =>
      have hmem := h license (findOne_mem hfind)
      by_cases hval : license.valid = false
      · simpa [hmiss, hfind, hval] using h
      · have hgoal : smallDevices (saveReplace { license with valid := false } s) :=
          smallDevices_saveReplace h hmem
        simpa [hmiss, hfind, hval] using hgoal

theorem smallDevices_reactivate (kOpt : Option String) (b : Bool)
    {s : List License} (h : smallDevices s) :
    smallDevices (reactivate kOpt b s).2 := by
  unfold reactivate
  by_cases hmiss : falsyStr kOpt = true
  · simpa [hmiss] using h
  · rw [Bool.not_eq_true] at hmiss
    cases hfind : findOne (kOpt.getD "") s with
    | none => simpa [hmiss, hfind] using h
    | some license =>
      have hmem := h license (findOne_mem hfind)
      have hgoal : ∀ dv : List String, dv.length ≤ 1 →
          smallDevices (saveReplace { license with valid := true, deviceId := dv } s) :=
        fun dv hdv => smallDevices_saveReplace h hdv
      by_cases hb : b = true
      · simpa [hmiss, hfind, hb] using hgoal [] (by simp)
      · rw [Bool.not_eq_true] at hb
        simpa [hmiss, hfind, hb] using hgoal license.deviceId hmem

theorem smallDevices_deleteLicense (kOpt : Option String)
    {s : List License} (h : smallDevices s) :
    smallDevices (deleteLicense kOpt s).2 := by
  unfold deleteLicense
  by_cases hmiss : falsyStr kOpt = true
  · simpa [hmiss] using h
  · rw [Bool.not_eq_true] at hmiss
    cases hfind : findOne (kOpt.getD "") s with
    | none => simpa [hmiss, hfind] using h
    | some license =>
      have hgoal : smallDevices (removeFirst (kOpt.getD "") s) :=
        fun x hx => h x (mem_removeFirst hx)
      simpa [hmiss, hfind] using hgoal

theorem smallDevices_applyOp {s : List License} (h : smallDevices s) :
    ∀ op : Op, smallDevices (applyOp s op)
  | .opGenerate e k ty => smallDevices_generate e k ty h
  | .opValidate now q k d => smallDevices_validate now q k d h
  | .opRevoke k => smallDevices_revoke k h
  | .opReactivate k b => smallDevices_reactivate k b h
  | .opDelete k => smallDevices_deleteLicense k h
  | .opSummary => h
  | .opList _ => h

theorem smallDevices_applyOps :
    ∀ (ops : List Op) {s : List License}, smallDevices s → smallDevices (applyOps s ops)
  | [], _, h => h
  | op :: ops, _, h => smallDevices_applyOps ops (smallDevices_applyOp h op)

/-- C3: starting from any store in which every record carries at most one
bound device — in particular the empty store, and hence every store a
sequence of issuances can create — after any sequence of requests
(generate, validate, revoke, reactivate, delete, summary, list) applied
one after another, every record with `valid = true` has at most one entry
in `deviceId`: validation appends a device only to an empty device list,
and no other handler adds devices. -/
theorem boundDevices_invariant (ops : List Op) (s : List License)
    (h : smallDevices s) :
    ∀ r ∈ applyOps s ops, r.valid = true → r.deviceId.length ≤ 1 :=
  fun r hr _ => smallDevices_applyOps ops h r hr

theorem boundDevices_invariant_witness :
    smallDevices [] ∧
    (∀ r ∈ applyOps []
        [Op.opGenerate (some "a@x.com") (some "K") (some "sender"),
         Op.opValidate 1 none (some "K") (some "d1"),
         Op.opValidate 2 none (some "K") (some "d2"),
         Op.opReactivate (some "K") false],
      r.valid = true → r.deviceId.length ≤ 1) := by
  have hemp : smallDevices [] := by intro r hr; simp at hr
  exact ⟨hemp, boundDevices_invariant _ [] hemp⟩

/-- C4 counterexample: in `src/index.js` the required type is
`req.query.type || "sender"`, so the type check is never skipped.  On a
valid, unbound record whose `type` is `"pro"`, a validate call that
supplies no `requiredType` fails with the type-mismatch response instead
of proceeding as the claim states. -/
theorem validate_type_not_skipped_cex :
    (validate 0 none (some "K") (some "d1")
        [⟨"K", some "pro", "a@x.com", true, [], none⟩]).1
      = ⟨403, false, "License type mismatch"⟩ ∧
    ¬((validate 0 none (some "K") (some "d1")
        [⟨"K", some "pro", "a@x.com", true, [], none⟩]).1.success = true) := by
  constructor
  · rfl
  · intro h
    simp [validate, falsyStr, findOne, effType] at h

/-- C4 (amended): the required type defaults to `"sender"` when the
`type` query parameter is absent (or empty); for a found, still-valid
record, validation fails with `TypeMismatch` exactly when the record's
`licenseType` differs from this effective required type.  The check is
never skipped. -/
theorem validate_type_mismatch_iff
    (now : Nat) (qty : Option String) (k d : String) (s : List License) (r : License)
    (hk : k ≠ "") (hd : d ≠ "")
    (hfind : findOne k s = some r) (hvalid : r.valid = true) :
    (validate now qty (some k) (some d) s).1.message = "License type mismatch"
      ↔ r.type ≠ some (effType qty) := by
  by_cases hty : r.type = some (effType qty)
  · refine iff_of_false ?_ (by simp [hty])
    by_cases hrev : ¬ d ∈ r.deviceId ∧ r.deviceId.length ≥ 1
    · simp [validate, falsyStr, hk, hd, hfind, hvalid, hty, hrev.1, hrev.2]
    · by_cases hd' : d ∈ r.deviceId
      · simp [validate, falsyStr, hk, hd, hfind, hvalid, hty, hd']
      · have hlen : r.deviceId.length = 0 := by
          rcases Decidable.not_and_iff_or_not.mp hrev with h1 | h1
          · exact absurd hd' (by simpa using h1)
          · omega
        simp [validate, falsyStr, hk, hd, hfind, hvalid, hty, hd', hlen]
  · refine iff_of_true ?_ hty
    simp [validate, falsyStr, hk, hd, hfind, hvalid, hty]

theorem validate_type_mismatch_iff_witness :
    ("K" : String) ≠ "" ∧
    ((validate 0 (some "pro") (some "K") (some "d1")
        [⟨"K", some "sender", "a@x.com", true, [], none⟩]).1.message
        = "License type mismatch"
      ↔ (⟨"K", some "sender", "a@x.com", true, [], none⟩ : License).type
          ≠ some (effType (some "pro"))) :=
  ⟨by decide,
   validate_type_mismatch_iff 0 (some "pro") "K" "d1"
     [⟨"K", some "sender", "a@x.com", true, [], none⟩]
     ⟨"K", some "sender", "a@x.com", true, [], none⟩
     (by decide) (by decide) rfl rfl⟩

/-- C5: `POST /licenses/reactivate` on an existing record sets
`valid = true` (also when the record is already valid — same success, no
distinct error) and empties `deviceId` when the reset flag is set; it
fails with the 404 not-found response, store unchanged, when no record
has the key.  After reactivating a revoked, device-bound record with the
reset flag, a validate call from a fresh device (whose effective required
type matches the record) succeeds. -/
theorem reactivate_spec
    (k : String) (reset : Bool) (s : List License) (r : License)
    (now : Nat) (qty : Option String) (d : String) (hk : k ≠ "") :
    (findOne k s = some r →
      reactivate (some k) reset s
        = (⟨200, true, "License reactivated successfully"⟩,
           saveReplace { r with valid := true, deviceId := if reset then [] else r.deviceId } s)) ∧
    (findOne k s = none →
      reactivate (some k) reset s = (⟨404, false, "License not found"⟩, s)) ∧
    (findOne k s = some r → r.type = some (effType qty) → d ≠ "" →
      (validate now qty (some k) (some d) (reactivate (some k) true s).2).1
        = ⟨200, true, "License validated successfully"⟩) := by
  refine ⟨?_, ?_, ?_⟩
  · intro hfind
    simp [reactivate, falsyStr, hk, hfind]
  · intro hnone
    simp [reactivate, falsyStr, hk, hnone]
  · intro hfind hty hd
    have hre : (reactivate (some k) true s).2
        = saveReplace { r with valid := true, deviceId := [] } s := by
      simp [reactivate, falsyStr, hk, hfind]
    rw [hre]
    have hkey0 : r.licenseKey = k := findOne_key hfind
    have hkey : ({ r with valid := true, deviceId := [] } : License).licenseKey = k := hkey0
    have hfind' : findOne k (saveReplace { r with valid := true, deviceId := [] } s)
        = some { r with valid := true, deviceId := [] } :=
      findOne_saveReplace hkey hfind
    rw [hty] at hfind'
    simp [validate, falsyStr, hk, hd, hty, hfind']

theorem reactivate_spec_witness :
    (reactivate (some "K") true
        [⟨"K", some "sender", "a@x.com", false, ["dev1"], none⟩]
      = (⟨200, true, "License reactivated successfully"⟩,
         [⟨"K", some "sender", "a@x.com", true, [], none⟩])) ∧
    (validate 7 none (some "K") (some "dev2")
        (reactivate (some "K") true
          [⟨"K", some "sender", "a@x.com", false, ["dev1"], none⟩]).2).1
      = ⟨200, true, "License validated successfully"⟩ := by
  have h := reactivate_spec "K" true
    [⟨"K", some "sender", "a@x.com", false, ["dev1"], none⟩]
    ⟨"K", some "sender", "a@x.com", false, ["dev1"], none⟩
    7 none "dev2" (by decide)
  exact ⟨h.1 rfl, h.2.2 rfl rfl (by decide)⟩

/-- C6: a validate call from a device already bound to a still-valid
record (whose effective required type matches) succeeds, leaves
`deviceId` unchanged — re-validation from the bound device never revokes
— and persists the record with `lastUsed` set to the current time. -/
theorem validate_same_device_idempotent
    (now : Nat) (qty : Option String) (k d : String) (s : List License) (r : License)
    (hk : k ≠ "") (hd : d ≠ "")
    (hfind : findOne k s = some r) (hvalid : r.valid = true)
    (hty : r.type = some (effType qty)) (hmem : d ∈ r.deviceId) :
    validate now qty (some k) (some d) s
      = (⟨200, true, "License validated successfully"⟩,
         saveReplace { r with lastUsed := some now } s) := by
  simp [validate, falsyStr, hk, hd, hfind, hvalid, hty, hmem]

theorem validate_same_device_idempotent_witness :
    validate 9 none (some "K") (some "dev1")
        [⟨"K", some "sender", "a@x.com", true, ["dev1"], some 3⟩]
      = (⟨200, true, "License validated successfully"⟩,
         [⟨"K", some "sender", "a@x.com", true, ["dev1"], some 9⟩]) :=
  validate_same_device_idempotent 9 none "K" "dev1"
    [⟨"K", some "sender", "a@x.com", true, ["dev1"], some 3⟩]
    ⟨"K", some "sender", "a@x.com", true, ["dev1"], some 3⟩
    (by decide) (by decide) rfl rfl rfl (by decide)

/-- C7: `POST /licenses/revoke` sets `valid = false` on an existing valid
record and succeeds; answers 404 not-found, store unchanged, when no
record has the key; answers the 400 "already revoked" error (not an
idempotent success), store unchanged, when the record already has
`valid = false`.  Hence revoking the same key twice succeeds the first
time and fails the second, the record staying revoked. -/
theorem revoke_spec (k : String) (s : List License) (r : License) (hk : k ≠ "") :
    (findOne k s = some r → r.valid = true →
      revoke (some k) s
        = (⟨200, true, "License revoked successfully"⟩,
           saveReplace { r with valid := false } s)) ∧
    (findOne k s = none →
      revoke (some k) s = (⟨404, false, "License not found"⟩, s)) ∧
    (findOne k s = some r → r.valid = false →
      revoke (some k) s = (⟨400, false, "License is already revoked"⟩, s)) ∧
    (findOne k s = some r → r.valid = true →
      revoke (some k) (revoke (some k) s).2
          = (⟨400, false, "License is already revoked"⟩, (revoke (some k) s).2) ∧
        findOne k (revoke (some k) s).2 = some { r with valid := false }) := by
  refine ⟨?_, ?_, ?_, ?_⟩
  · intro hfind hval
    simp [revoke, falsyStr, hk, hfind, hval]
  · intro hnone
    simp [revoke, falsyStr, hk, hnone]
  · intro hfind hval
    simp [revoke, falsyStr, hk, hfind, hval]
  · intro hfind hval
    have h1 : (revoke (some k) s).2 = saveReplace { r with valid := false } s := by
      simp [revoke, falsyStr, hk, hfind, hval]
    have hkey0 : r.licenseKey = k := findOne_key hfind
    have hkey : ({ r with valid := false } : License).licenseKey = k := hkey0
    have hfind' : findOne k (saveReplace { r with valid := false } s)
        = some { r with valid := false } := findOne_saveReplace hkey hfind
    rw [h1]
    exact ⟨by simp [revoke, falsyStr, hk, hfind'], hfind'⟩

theorem revoke_spec_witness :
    revoke (some "K") [⟨"K", some "sender", "a@x.com", true, ["dev1"], some 3⟩]
      = (⟨200, true, "License revoked successfully"⟩,
         [⟨"K", some "sender", "a@x.com", false, ["dev1"], some 3⟩]) ∧
    revoke (some "K")
        (revoke (some "K") [⟨"K", some "sender", "a@x.com", true, ["dev1"], some 3⟩]).2
      = (⟨400, false, "License is already revoked"⟩,
         (revoke (some "K") [⟨"K", some "sender", "a@x.com", true, ["dev1"], some 3⟩]).2) := by
  have h := revoke_spec "K" [⟨"K", some "sender", "a@x.com", true, ["dev1"], some 3⟩]
    ⟨"K", some "sender", "a@x.com", true, ["dev1"], some 3⟩ (by decide)
  exact ⟨h.1 rfl rfl, (h.2.2.2 rfl rfl).1⟩

/-- C8: `POST /generate` creates a new record in the unbound-valid state
(`valid = true`, empty `deviceId`, unset `lastUsed`) appended to the
store; it fails with the 409 already-exists response when a record with
the key is present, and with the 400 missing-fields response when
`licenseKey` or `email` is absent (or empty) — in both failure cases the
store is returned unchanged, so the pre-existing record keeps all its
fields. -/
theorem generate_spec (e kOpt ty : Option String) (s : List License) (r₀ : License) :
    ((falsyStr e = true ∨ falsyStr kOpt = true) →
      generate e kOpt ty s = (⟨400, false, "Missing fields"⟩, s)) ∧
    (falsyStr e = false → falsyStr kOpt = false →
      findOne (kOpt.getD "") s = some r₀ →
      generate e kOpt ty s = (⟨409, false, "License already exists"⟩, s)) ∧
    (falsyStr e = false → falsyStr kOpt = false →
      findOne (kOpt.getD "") s = none →
      generate e kOpt ty s
        = (⟨200, true, "License created"⟩,
           s ++ [⟨kOpt.getD "", ty, e.getD "", true, [], none⟩])) := by
  refine ⟨?_, ?_, ?_⟩
  · rintro (he | hkf)
    · simp [generate, he]
    · simp [generate, hkf]
  · intro he hkf hfind
    simp [generate, he, hkf, hfind]
  · intro he hkf hnone
    simp [generate, he, hkf, hnone]

theorem generate_spec_witness :
    generate (some "a@x.com") (some "K") (some "sender")
        [⟨"K", some "sender", "b@x.com", true, ["dev1"], some 3⟩]
      = (⟨409, false, "License already exists"⟩,
         [⟨"K", some "sender", "b@x.com", true, ["dev1"], some 3⟩]) ∧
    generate (some "a@x.com") (some "K") (some "sender") []
      = (⟨200, true, "License created"⟩,
         [⟨"K", some "sender", "a@x.com", true, [], none⟩]) := by
  refine ⟨?_, ?_⟩
  · exact (generate_spec (some "a@x.com") (some "K") (some "sender")
      [⟨"K", some "sender", "b@x.com", true, ["dev1"], some 3⟩]
      ⟨"K", some "sender", "b@x.com", true, ["dev1"], some 3⟩).2.1 rfl rfl rfl
  · exact (generate_spec (some "a@x.com") (some "K") (some "sender") []
      ⟨"K", some "sender", "b@x.com", true, ["dev1"], some 3⟩).2.2 rfl rfl rfl
